import Mathlib

/-!
Shallow embedding of the 2d graphics drawing core: the transformation
context (src/context.rs), the back-end call surface consumed by image
drawing (src/graphics.rs), and the image draw routine (src/image.rs).

Scalars (Rust f64) are modelled exactly as rationals.  The f32 color
channels, whose only control-flow role is the alpha test in Image::draw,
are modelled by a type that also carries NaN, with an equality test
mirroring IEEE comparison on the modelled values (NaN is unequal to
everything).  Image::draw is modelled as the trace of back-end calls it
issues, in order.
-/

/-- Scalar type of the drawing core (internal::Scalar, Rust f64), modelled exactly. -/
abbrev Scalar : Type := ℚ

/-- Model of an f32 color channel: NaN, or an exact numeric value. -/
inductive F32 where
  | nan : F32
  | num : ℚ → F32
deriving DecidableEq

/-- IEEE equality test on modelled f32 channels: NaN compares unequal to everything (itself included); numeric values compare exactly. -/
def F32.beq : F32 → F32 → Bool
  | F32.num a, F32.num b => a == b
  | _, _ => false

/-- RGBA color of four f32 channels (internal::Color); index 3 is the alpha channel, here the field a. -/
structure Color where
  r : F32
  g : F32
  b : F32
  a : F32
deriving DecidableEq

/-- Texture-space source rectangle of four integers x, y, width, height (internal::SourceRectangle); indices 2 and 3 are the fields w and h. -/
structure SourceRectangle where
  x : ℤ
  y : ℤ
  w : ℤ
  h : ℤ
deriving DecidableEq

/-- Row-major 2x3 affine matrix (vecmath Matrix2d): row 0 is [m00, m01, m02], row 1 is [m10, m11, m12]. -/
structure Matrix2d where
  m00 : ℚ
  m01 : ℚ
  m02 : ℚ
  m10 : ℚ
  m11 : ℚ
  m12 : ℚ
deriving DecidableEq

/-- Identity affine matrix (vecmath identity, the external algebra dependency). -/
def identity : Matrix2d := ⟨1, 0, 0, 0, 1, 0⟩

/-- Face culling mode (draw_state::block::CullFace, external crate). -/
inductive CullFace where
  | Nothing : CullFace
  | Front : CullFace
  | Back : CullFace
deriving DecidableEq

/-- Rasterization method (draw_state::block::RasterMethod, external crate). -/
inductive RasterMethod where
  | Point : RasterMethod
  | Line : RasterMethod
  | Fill : CullFace → RasterMethod
deriving DecidableEq

/-- Blend preset (draw_state::BlendPreset, external crate). -/
inductive BlendPreset where
  | Alpha : BlendPreset
  | Additive : BlendPreset
  | Multiply : BlendPreset
  | Invert : BlendPreset
deriving DecidableEq

/-- Draw-state settings (draw_state::DrawState, external crate), modelled by the two fields this core configures: the primitive rasterization method and the blend preset. -/
structure DrawState where
  method : RasterMethod
  blend : Option BlendPreset
deriving DecidableEq

/-- Fresh draw state (DrawState::new of the external crate). Both modelled fields are overwritten by default_draw_state before use, so their initial values never reach a claim. -/
def DrawState.new : DrawState :=
  { method := RasterMethod.Fill CullFace.Nothing, blend := none }

/-- Blend configuration call (DrawState::blend of the external crate): sets the blend preset and returns the updated state. -/
def DrawState.set_blend (s : DrawState) (p : BlendPreset) : DrawState :=
  { s with blend := some p }

/-- Default draw state of this core (src/context.rs default_draw_state): start from DrawState::new, set the primitive method to Fill(CullFace::Nothing), then apply the Alpha blend preset. -/
def default_draw_state : DrawState :=
  let draw_state := DrawState.new
  let draw_state := { draw_state with method := RasterMethod.Fill CullFace.Nothing }
  draw_state.set_blend BlendPreset.Alpha

/-- Drawing 2d context (src/context.rs Context). -/
structure Context where
  view : Matrix2d
  transform : Matrix2d
  draw_state : DrawState
deriving DecidableEq

/-- Transform property wrapper (src/context.rs Transform). -/
structure Transform where
  val : Matrix2d
deriving DecidableEq

/-- View transform property wrapper (src/context.rs ViewTransform). -/
structure ViewTransform where
  val : Matrix2d
deriving DecidableEq

/-- Property read of Transform (quack! get in src/context.rs): Transform(c.transform). -/
def Context.get_Transform (c : Context) : Transform :=
  Transform.mk c.transform

/-- Property read of ViewTransform (quack! get in src/context.rs): ViewTransform(c.view). -/
def Context.get_ViewTransform (c : Context) : ViewTransform :=
  ViewTransform.mk c.view

/-- Property write of Transform (quack! set in src/context.rs): c.transform = val.0, yielding the updated context value. -/
def Context.set_Transform (c : Context) (val : Transform) : Context :=
  { c with transform := val.val }

/-- Property write of ViewTransform (quack! set in src/context.rs): c.view = val.0, yielding the updated context value. -/
def Context.set_ViewTransform (c : Context) (val : ViewTransform) : Context :=
  { c with view := val.val }

/-- Creates a new drawing context (src/context.rs Context::new). -/
def Context.new : Context :=
  { view := identity, transform := identity, draw_state := default_draw_state }

/-- Creates a new drawing context in absolute coordinates (src/context.rs Context::abs): sx = 2/w, sy = -2/h, matrix [[sx, 0, -1], [0, sy, 1]], used for both view and transform. -/
def Context.abs (w h : Scalar) : Context :=
  let sx := 2 / w
  let sy := (-2) / h
  let mat : Matrix2d := ⟨sx, 0, -1, 0, sy, 1⟩
  { view := mat, transform := mat, draw_state := default_draw_state }

/-- Modelled from the spec: the ImageSize capability is declared outside src/. A texture must report its pixel width and height, used to normalize UV coordinates. -/
class ImageSize (I : Type) where
  get_width : I → ℕ
  get_height : I → ℕ

/-- Concrete texture carrying only its pixel dimensions, for instantiating the back-end-generic statements at concrete inputs. -/
structure Texture where
  width : ℕ
  height : ℕ
deriving DecidableEq

instance : ImageSize Texture where
  get_width t := t.width
  get_height t := t.height

/-- Modelled from the spec: the affine application of a 2x3 row-major matrix to a point, the external vecmath transform through which the triangulation helper produces each output position vertex as the affine-transformed corner. -/
def Matrix2d.apply (m : Matrix2d) (x y : ℚ) : ℚ × ℚ :=
  (m.m00 * x + m.m01 * y + m.m02, m.m10 * x + m.m11 * y + m.m12)

/-- Modelled from the spec: triangulation::rect_tri_list_xy is not under src/. A rectangle [x, y, w, h] decomposes into two triangles sharing one diagonal, producing exactly six vertices in a fixed order; each output position vertex is the affine-transformed corner under the supplied matrix, emitted as a flat coordinate buffer. -/
def rect_tri_list_xy (m : Matrix2d) (rect : ℚ × ℚ × ℚ × ℚ) : List ℚ :=
  let x := rect.1
  let y := rect.2.1
  let w := rect.2.2.1
  let h := rect.2.2.2
  let p1 := m.apply x y
  let p2 := m.apply (x + w) y
  let p3 := m.apply x (y + h)
  let p4 := m.apply (x + w) (y + h)
  [p1.1, p1.2, p2.1, p2.2, p3.1, p3.2,
   p2.1, p2.2, p3.1, p3.2, p4.1, p4.2]

/-- Modelled from the spec: triangulation::rect_tri_list_uv is not under src/. Each output UV vertex is the corresponding corner of the source rectangle divided by the texture full pixel width and height, six vertices in the same fixed order as the position buffer, emitted as a flat coordinate buffer. -/
def rect_tri_list_uv {I : Type} [ImageSize I] (t : I) (src : SourceRectangle) : List ℚ :=
  let tw : ℚ := (ImageSize.get_width t : ℕ)
  let th : ℚ := (ImageSize.get_height t : ℕ)
  let x1 := (src.x : ℚ) / tw
  let y1 := (src.y : ℚ) / th
  let x2 := ((src.x : ℚ) + (src.w : ℚ)) / tw
  let y2 := ((src.y : ℚ) + (src.h : ℚ)) / th
  [x1, y1, x2, y1, x1, y2,
   x2, y1, x1, y2, x2, y2]

/-- Back-end call issued by Image::draw, recorded as one trace element: texture bind, color set, textured triangle list with a position buffer and a UV buffer, texture unbind (the BackEnd capability consumed by src/image.rs). -/
inductive BackendCall (I : Type) where
  | enable_texture : I → BackendCall I
  | color : Color → BackendCall I
  | tri_list_uv : List ℚ → List ℚ → BackendCall I
  | disable_texture : BackendCall I
deriving DecidableEq

/-- An image with source rectangle (src/image.rs Image). -/
structure Image (I : Type) where
  texture : I
  color : Color
  source_rectangle : SourceRectangle

/-- Draws the image (src/image.rs Image::draw), modelled as the ordered trace of back-end calls it issues: if the alpha channel compares equal to 0 under IEEE comparison, return with no calls; otherwise bind the texture, set the color, issue one tri_list_uv call triangulating the local rectangle [0, 0, src.w, src.h] under the context transform with the source rectangle triangulated in UV space, then unbind the texture. -/
def Image.draw {I : Type} [ImageSize I] (img : Image I) (c : Context) : List (BackendCall I) :=
  if F32.beq img.color.a (F32.num 0) then [] else
  let rect : ℚ × ℚ × ℚ × ℚ :=
    (0, 0, (img.source_rectangle.w : ℚ), (img.source_rectangle.h : ℚ))
  [BackendCall.enable_texture img.texture,
   BackendCall.color img.color,
   BackendCall.tri_list_uv
     (rect_tri_list_xy c.transform rect)
     (rect_tri_list_uv img.texture img.source_rectangle),
   BackendCall.disable_texture]

/-- The IEEE equality test against a numeric value succeeds exactly on that numeric value; in particular NaN never compares equal. -/
theorem F32.beq_num_iff (a : F32) (q : ℚ) : F32.beq a (F32.num q) = true ↔ a = F32.num q := by
  cases a <;> simp [F32.beq]

/-- C1: for every image whose color alpha is 0 and every context, Image::draw returns immediately and issues no back-end calls. -/
theorem spec_c1 {I : Type} [ImageSize I] (img : Image I) (c : Context)
    (h : img.color.a = F32.num 0) : img.draw c = [] := by
  unfold Image.draw
  rw [h]
  simp [F32.beq]

/-- Witness for C1 at a concrete fully transparent image drawn into a fresh context. -/
theorem spec_c1_witness :
    (Image.mk (Texture.mk 8 8)
      (Color.mk (F32.num 1) (F32.num 1) (F32.num 1) (F32.num 0))
      (SourceRectangle.mk 0 0 8 8)).draw Context.new = [] :=
  spec_c1 _ _ rfl

/-- C2: with nonzero alpha, Image::draw issues exactly enable_texture with the image texture, color with the image color, one tri_list_uv whose position buffer triangulates the local rectangle [0, 0, src.w, src.h] under the context transform and whose UV buffer triangulates the source rectangle against the texture dimensions, then disable_texture. -/
theorem spec_c2 {I : Type} [ImageSize I] (img : Image I) (c : Context)
    (h : img.color.a ≠ F32.num 0) :
    img.draw c =
      [BackendCall.enable_texture img.texture,
       BackendCall.color img.color,
       BackendCall.tri_list_uv
         (rect_tri_list_xy c.transform
           (0, 0, (img.source_rectangle.w : ℚ), (img.source_rectangle.h : ℚ)))
         (rect_tri_list_uv img.texture img.source_rectangle),
       BackendCall.disable_texture] := by
  have hb : F32.beq img.color.a (F32.num 0) = false := by
    cases hd : F32.beq img.color.a (F32.num 0) with
    | false => rfl
    | true => exact absurd ((F32.beq_num_iff _ _).mp hd) h
  unfold Image.draw
  rw [hb]
  simp

/-- Witness for C2 at a concrete opaque image drawn into a fresh context. -/
theorem spec_c2_witness :
    (Image.mk (Texture.mk 4 2)
      (Color.mk (F32.num 1) (F32.num 1) (F32.num 1) (F32.num 1))
      (SourceRectangle.mk 0 0 4 2)).draw Context.new =
      [BackendCall.enable_texture (Texture.mk 4 2),
       BackendCall.color (Color.mk (F32.num 1) (F32.num 1) (F32.num 1) (F32.num 1)),
       BackendCall.tri_list_uv
         (rect_tri_list_xy Context.new.transform (0, 0, ((4 : ℤ) : ℚ), ((2 : ℤ) : ℚ)))
         (rect_tri_list_uv (Texture.mk 4 2) (SourceRectangle.mk 0 0 4 2)),
       BackendCall.disable_texture] :=
  spec_c2 _ _ (by decide)

/-- C3: for all scalars w and h, Context::abs(w, h) has both view and transform equal to the matrix with row 0 = [2/w, 0, -1] and row 1 = [0, -2/h, 1]. -/
theorem spec_c3 (w h : Scalar) :
    (Context.abs w h).view = Matrix2d.mk (2 / w) 0 (-1) 0 ((-2) / h) 1 ∧
    (Context.abs w h).transform = Matrix2d.mk (2 / w) 0 (-1) 0 ((-2) / h) 1 :=
  ⟨rfl, rfl⟩

/-- C4: setting the Transform property and reading it back yields the written value, and likewise for ViewTransform. -/
theorem spec_c4 (c : Context) (m : Matrix2d) :
    (c.set_Transform (Transform.mk m)).get_Transform = Transform.mk m ∧
    (c.set_ViewTransform (ViewTransform.mk m)).get_ViewTransform = ViewTransform.mk m :=
  ⟨rfl, rfl⟩

/-- C5: setting the Transform property replaces only the transform field, leaving view and draw_state unchanged; setting the ViewTransform property replaces only the view field, leaving transform and draw_state unchanged. -/
theorem spec_c5 (c : Context) (m : Matrix2d) :
    ((c.set_Transform (Transform.mk m)).transform = m ∧
     (c.set_Transform (Transform.mk m)).view = c.view ∧
     (c.set_Transform (Transform.mk m)).draw_state = c.draw_state) ∧
    ((c.set_ViewTransform (ViewTransform.mk m)).view = m ∧
     (c.set_ViewTransform (ViewTransform.mk m)).transform = c.transform ∧
     (c.set_ViewTransform (ViewTransform.mk m)).draw_state = c.draw_state) :=
  ⟨⟨rfl, rfl, rfl⟩, ⟨rfl, rfl, rfl⟩⟩

/-- C6: for nonzero scalars w and h, the matrix built by Context::abs(w, h) maps the pixel-space corner (0, 0) to the device coordinate (-1, 1) and the corner (w, h) to (1, -1). -/
theorem spec_c6 (w h : Scalar) (hw : w ≠ 0) (hh : h ≠ 0) :
    (Context.abs w h).transform.apply 0 0 = (-1, 1) ∧
    (Context.abs w h).transform.apply w h = (1, -1) := by
  refine ⟨?_, ?_⟩ <;> simp only [Context.abs, Matrix2d.apply, Prod.mk.injEq]
  · norm_num
  · rw [div_mul_cancel₀ _ hw, div_mul_cancel₀ _ hh]
    norm_num

/-- Witness for C6 at the concrete viewport 800 by 600. -/
theorem spec_c6_witness :
    (Context.abs 800 600).transform.apply 0 0 = (-1, 1) ∧
    (Context.abs 800 600).transform.apply 800 600 = (1, -1) :=
  spec_c6 800 600 (by norm_num) (by norm_num)

/-- C7: Context::new has view and transform both equal to the identity matrix, in particular zero translation entries, and the default draw state: fill rasterization with no face culling and alpha blending. -/
theorem spec_c7 :
    Context.new.view = identity ∧
    Context.new.transform = identity ∧
    Context.new.transform.m02 = 0 ∧
    Context.new.transform.m12 = 0 ∧
    Context.new.draw_state = default_draw_state ∧
    default_draw_state.method = RasterMethod.Fill CullFace.Nothing ∧
    default_draw_state.blend = some BlendPreset.Alpha :=
  ⟨rfl, rfl, rfl, rfl, rfl, rfl, rfl⟩

/-- C8: the public operations are total; in particular Image::draw completes on every input, including zero-area or negative-size source rectangles and singular or degenerate transforms, producing either the empty trace or the full four-call trace, and Context::abs completes for every pair of scalars, zero included. -/
theorem spec_c8 {I : Type} [ImageSize I] (img : Image I) (c : Context) (w h : Scalar) :
    (img.draw c = [] ∨ (img.draw c).length = 4) ∧
    (Context.abs w h).draw_state = default_draw_state := by
  refine ⟨?_, rfl⟩
  unfold Image.draw
  cases hb : F32.beq img.color.a (F32.num 0) with
  | false => right; simp
  | true => left; simp

/-- C9: Image::draw is deterministic in its inputs, and with a full-texture source rectangle the UV buffer consists exactly of the unit-square corners 0 and 1 on each axis, in a fixed vertex order. -/
theorem spec_c9 (W H : ℕ) (hW : W ≠ 0) (hH : H ≠ 0)
    (img1 img2 : Image Texture) (c1 c2 : Context)
    (himg : img1 = img2) (hc : c1 = c2) :
    img1.draw c1 = img2.draw c2 ∧
    rect_tri_list_uv (Texture.mk W H) (SourceRectangle.mk 0 0 (W : ℤ) (H : ℤ)) =
      [0, 0, 1, 0, 0, 1, 1, 0, 0, 1, 1, 1] := by
  subst himg hc
  refine ⟨rfl, ?_⟩
  have hWq : (W : ℚ) ≠ 0 := Nat.cast_ne_zero.mpr hW
  have hHq : (H : ℚ) ≠ 0 := Nat.cast_ne_zero.mpr hH
  simp [rect_tri_list_uv, ImageSize.get_width, ImageSize.get_height, div_self, hWq, hHq]

/-- Witness for C9 at a concrete 4 by 2 texture with the full-texture source rectangle. -/
theorem spec_c9_witness :
    (Image.mk (Texture.mk 4 2)
      (Color.mk (F32.num 1) (F32.num 1) (F32.num 1) (F32.num 1))
      (SourceRectangle.mk 0 0 4 2)).draw Context.new =
    (Image.mk (Texture.mk 4 2)
      (Color.mk (F32.num 1) (F32.num 1) (F32.num 1) (F32.num 1))
      (SourceRectangle.mk 0 0 4 2)).draw Context.new ∧
    rect_tri_list_uv (Texture.mk 4 2) (SourceRectangle.mk 0 0 ((4 : ℕ) : ℤ) ((2 : ℕ) : ℤ)) =
      [0, 0, 1, 0, 0, 1, 1, 0, 0, 1, 1, 1] :=
  spec_c9 4 2 (by decide) (by decide) _ _ _ _ rfl rfl

/-- C10: Image::draw elides rendering exactly when the alpha channel is the numeric value 0; every other alpha, NaN included since IEEE comparison with 0 is then false, yields the full four-call trace. -/
theorem spec_c10 {I : Type} [ImageSize I] (img : Image I) (c : Context) :
    (img.draw c = [] ↔ img.color.a = F32.num 0) ∧
    F32.beq F32.nan (F32.num 0) = false := by
  refine ⟨?_, rfl⟩
  unfold Image.draw
  cases hb : F32.beq img.color.a (F32.num 0) with
  | false =>
    simp only [Bool.false_eq_true, if_false]
    constructor
    · intro hnil; exact absurd hnil (by simp)
    · intro ha
      rw [(F32.beq_num_iff img.color.a 0).mpr ha] at hb
      exact absurd hb (by simp)
  | true =>
    simp only [if_true]
    constructor
    · intro _; exact (F32.beq_num_iff img.color.a 0).mp hb
    · intro _; trivial
